import Mathlib

/-!
Verification development for the enhanced face-verification pipeline
(`backend/face_verification_enhanced.py` of the votecrypt repository).

The Python module is shallowly embedded: pure numeric computations become
functions over `ℚ` (the source compares and adds scores; no rounding of the
underlying IEEE arithmetic is observable in the compared quantities),
machine integers become `ℤ`/`ℕ`, fallible backend calls become `Except`
values supplied by an environment record, and the staged pipeline
`verify_faces` becomes a function from that environment to a structured
response paired with a trace of the stages it invoked.
-/

namespace VoteCrypt

/-- The three recognition models of the ensemble, in the fixed order the
source iterates over them (ArcFace, Facenet512, VGG-Face). -/
inductive ModelName where
  | ArcFace
  | Facenet512
  | VGGFace
deriving DecidableEq, Repr

/-- `MODEL_THRESHOLDS`: the per-model distance threshold table. -/
def MODEL_THRESHOLDS : ModelName → ℚ
  | .ArcFace => 15/100
  | .Facenet512 => 25/100
  | .VGGFace => 30/100

/-- `VerificationResult` dataclass: result from a single model verification. -/
structure VerificationResult where
  model_name : ModelName
  distance : ℚ
  verified : Bool
  threshold : ℚ
deriving DecidableEq, Repr

/-- `_verify_with_model` after the DeepFace import has succeeded.  The
argument models the outcome of `DeepFace.verify`: `.ok d` is a successful
call whose result dictionary holds distance `d`; `.error ()` is the backend
raising, which the source catches and records as the worst case
(`distance = 1.0`, `verified = False`). -/
def _verify_with_model (outcome : Except Unit ℚ) (model_name : ModelName) :
    VerificationResult :=
  match outcome with
  | .ok distance =>
      { model_name := model_name
        distance := distance
        verified := distance < MODEL_THRESHOLDS model_name
        threshold := MODEL_THRESHOLDS model_name }
  | .error _ =>
      { model_name := model_name
        distance := 1
        verified := false
        threshold := MODEL_THRESHOLDS model_name }

/-- The fixed model iteration order of stage `[5/6]` of `verify_faces`. -/
def modelOrder : List ModelName := [.ArcFace, .Facenet512, .VGGFace]

/-- The list `model_results` built by the loop in stage `[5/6]` of
`verify_faces`, as a function of the per-model backend outcomes. -/
def ensembleResults (outcome : ModelName → Except Unit ℚ) :
    List VerificationResult :=
  modelOrder.map (fun m => _verify_with_model (outcome m) m)

/-- `verified_count = sum(1 for r in model_results if r.verified)`. -/
def verifiedCount (results : List VerificationResult) : ℕ :=
  (results.filter (fun r => r.verified)).length

/-- `_bbox_overlap`: IoU of two axis-aligned integer boxes `(x1,y1,x2,y2)`. -/
def _bbox_overlap (bbox1 bbox2 : ℤ × ℤ × ℤ × ℤ) : ℚ :=
  let (x1_1, y1_1, x2_1, y2_1) := bbox1
  let (x1_2, y1_2, x2_2, y2_2) := bbox2
  let x1_i := max x1_1 x1_2
  let y1_i := max y1_1 y1_2
  let x2_i := min x2_1 x2_2
  let y2_i := min y2_1 y2_2
  if x2_i < x1_i ∨ y2_i < y1_i then 0
  else
    let intersection : ℚ := ((x2_i - x1_i) * (y2_i - y1_i) : ℤ)
    let area1 : ℚ := ((x2_1 - x1_1) * (y2_1 - y1_1) : ℤ)
    let area2 : ℚ := ((x2_2 - x1_2) * (y2_2 - y1_2) : ℤ)
    let union := area1 + area2 - intersection
    if union = 0 then 0
    else intersection / union

/-- `FaceQualityMetrics` dataclass. `overall_quality` keeps the string labels of
the source: excellent, good, fair, poor. -/
structure FaceQualityMetrics where
  blur_score : ℚ
  brightness_score : ℚ
  face_size : ℤ × ℤ
  pose_angle : ℚ
  is_frontal : Bool
  has_occlusion : Bool
  overall_quality : String
deriving DecidableEq, Repr

/-- The raw, image-derived measurements that `_assess_face_quality` reads
off the pixel data of the crop (Laplacian variance, mean gray level, and
the dark/bright pixel fractions of the occlusion check). -/
structure QualityRaw where
  blur_score : ℚ
  brightness_score : ℚ
  dark_pixels : ℚ
  bright_pixels : ℚ
deriving DecidableEq, Repr

/-- `_assess_face_quality` as a function of the raw pixel measurements, the
bounding box and the configured `min_face_size`. -/
def _assess_face_quality (min_face_size : ℤ) (raw : QualityRaw)
    (bbox : ℤ × ℤ × ℤ × ℤ) : FaceQualityMetrics :=
  let (x1, y1, x2, y2) := bbox
  let face_size : ℤ × ℤ := (x2 - x1, y2 - y1)
  let aspect_ratio : ℚ := (face_size.1 : ℚ) / (face_size.2 : ℚ)
  let pose_angle := |((8 : ℚ)/10) - aspect_ratio| * 100
  let is_frontal : Bool := ((1 : ℚ)/2) < aspect_ratio ∧ aspect_ratio < (3 : ℚ)/2
  let has_occlusion : Bool :=
    raw.dark_pixels > (3 : ℚ)/10 ∨ raw.bright_pixels > (3 : ℚ)/10
  let quality_score : ℕ :=
    (if raw.blur_score > 100 then 1 else 0)
    + (if 50 < raw.brightness_score ∧ raw.brightness_score < 200 then 1 else 0)
    + (if face_size.1 ≥ min_face_size ∧ face_size.2 ≥ min_face_size then 1 else 0)
    + (if ¬ has_occlusion then 1 else 0)
  let overall_quality :=
    if quality_score ≥ 3 then "excellent"
    else if quality_score = 2 then "good"
    else if quality_score = 1 then "fair"
    else "poor"
  { blur_score := raw.blur_score
    brightness_score := raw.brightness_score
    face_size := face_size
    pose_angle := pose_angle
    is_frontal := is_frontal
    has_occlusion := has_occlusion
    overall_quality := overall_quality }

/-- The raw, image-derived measurements that `_check_liveness` reads off the
selfie crop (gradient-magnitude variance, high-frequency spectral energy,
and the skin-hue pixel ratio). -/
structure LivenessRaw where
  gradient_variance : ℚ
  high_freq_energy : ℚ
  skin_ratio : ℚ
deriving DecidableEq, Repr

/-- `_check_liveness`: returns `(is_live, liveness_score)`.  When liveness
is disabled by configuration the source returns `(True, 1.0)` at once. -/
def _check_liveness (enable_liveness : Bool) (raw : LivenessRaw) : Bool × ℚ :=
  if ¬ enable_liveness then (true, 1)
  else
    let liveness_score : ℚ :=
      (if raw.gradient_variance > 50 then (4 : ℚ)/10 else 0)
      + (if raw.high_freq_energy > 1000 then (3 : ℚ)/10 else 0)
      + (if raw.skin_ratio > (3 : ℚ)/10 then (3 : ℚ)/10 else 0)
    let is_live : Bool := liveness_score > (6 : ℚ)/10
    (is_live, liveness_score)

/-- A detected face candidate: bounding box plus detector confidence (the
`method` string of the source dictionary carries no decision weight and is
omitted; the cascade trace below records which detector produced it). -/
structure FaceCandidate where
  bbox : ℤ × ℤ × ℤ × ℤ
  confidence : ℚ
deriving DecidableEq, Repr

/-- The four detection methods of the cascade, in source priority order. -/
inductive DetMethod where
  | yolo
  | haar
  | mediapipe
  | dnn
deriving DecidableEq, Repr

/-- A detector backend call whose exceptions the source catches and turns
into an empty candidate list. -/
def runDetector (r : Except Unit (List FaceCandidate)) : List FaceCandidate :=
  match r with
  | .ok faces => faces
  | .error _ => []

/-- `_detect_faces_yolo`: the full detection cascade.  Returns the chosen
candidate list together with the list of detection methods invoked, in
order.  A backend raising in any stage is caught locally (inside the try/except of
the stage itself) and treated as zero candidates. -/
def _detect_faces_yolo (backend : DetMethod → Except Unit (List FaceCandidate)) :
    List FaceCandidate × List DetMethod :=
  let yolo_faces := runDetector (backend .yolo)
  if yolo_faces ≠ [] then (yolo_faces, [.yolo])
  else
    let haar_faces := runDetector (backend .haar)
    if haar_faces ≠ [] then (haar_faces, [.yolo, .haar])
    else
      let mp_faces := runDetector (backend .mediapipe)
      if mp_faces ≠ [] then (mp_faces, [.yolo, .haar, .mediapipe])
      else
        (runDetector (backend .dnn), [.yolo, .haar, .mediapipe, .dnn])

/-- Round a rational to the nearest integer, ties to even (the rounding used by the round builtin of Python). -/
def roundHalfEven (q : ℚ) : ℤ :=
  let f := Int.floor q
  let r := q - (f : ℚ)
  if r < 1/2 then f
  else if r > 1/2 then f + 1
  else if f % 2 = 0 then f else f + 1

/-- `round(q, ndigits)` on exact rationals. -/
def roundTo (ndigits : ℕ) (q : ℚ) : ℚ :=
  (roundHalfEven (q * (10 : ℚ)^ndigits) : ℚ) / (10 : ℚ)^ndigits

/-- Two-decimal rendering of a rational, as in the `f"{x:.2f}"` fragments
of the rejection messages. -/
def fmt2 (q : ℚ) : String :=
  let n := roundHalfEven (q * 100)
  let sign := if n < 0 then "-" else ""
  let a := n.natAbs
  let frac := a % 100
  sign ++ toString (a / 100) ++ "." ++ (if frac < 10 then "0" else "") ++ toString frac

/-- The dictionary produced by `_error_response`: `verified` is always
`False` there, so only the message and the machine-readable tag remain. -/
structure ErrorResponse where
  message : String
  error : String
deriving DecidableEq, Repr

/-- `_error_response(message, error_code)`; every call site that omits
`error_code` passes the source default `"verification_failed"` explicitly
below. -/
def _error_response (message : String) (error_code : String) : ErrorResponse :=
  { message := message, error := error_code }

/-- One entry of the `model_details` list of the success payload (distances
rounded to four decimals for the response). -/
structure ModelDetail where
  model : ModelName
  distance : ℚ
  threshold : ℚ
  verified : Bool
deriving DecidableEq, Repr

/-- The full success dictionary assembled at the end of `verify_faces`. -/
structure SuccessPayload where
  verified : Bool
  message : String
  models_verified : ℕ
  total_models : ℕ
  required_agreement : ℕ
  average_distance : ℚ
  model_details : List ModelDetail
  id_quality : String
  selfie_quality : String
  id_blur_score : ℚ
  selfie_blur_score : ℚ
  liveness_score : ℚ
  liveness_passed : Bool
  id_detection_confidence : ℚ
  selfie_detection_confidence : ℚ
  similarity_percentage : ℚ
deriving DecidableEq, Repr

/-- A `verify_faces` return value: either the `_error_response` dictionary
(gate rejection or caught internal error) or the full success payload. -/
inductive Response where
  | rejected (r : ErrorResponse)
  | completed (p : SuccessPayload)
deriving DecidableEq, Repr

/-- The pipeline stages whose invocation the claims track. -/
inductive Stage where
  | detection
  | quality
  | liveness
  | alignment
  | ensemble
deriving DecidableEq, Repr

/-- The verifier object: the configuration fields set by
`EnhancedFaceVerifier.__init__`. -/
structure EnhancedFaceVerifier where
  min_models_agree : ℕ
  enable_liveness : Bool
  min_face_size : ℤ
  min_confidence : ℚ
deriving DecidableEq, Repr

/-- `EnhancedFaceVerifier.__init__(min_models_agree, enable_liveness)`:
fixes `min_face_size = 60` and `min_confidence = 0.6`. -/
def mkEnhancedFaceVerifier (min_models_agree : ℕ) (enable_liveness : Bool) :
    EnhancedFaceVerifier :=
  { min_models_agree := min_models_agree
    enable_liveness := enable_liveness
    min_face_size := 60
    min_confidence := 6/10 }

/-- The environment of one `verify_faces` call: the outcomes of every
external interaction (image decoding, the detector backends per image, the
pixel-derived quality and liveness measurements, and the embedding
availability of the embedding backend and per-model outcomes). -/
structure PipelineEnv where
  id_decodes : Bool
  selfie_decodes : Bool
  id_detect : DetMethod → Except Unit (List FaceCandidate)
  selfie_detect : DetMethod → Except Unit (List FaceCandidate)
  id_quality_raw : QualityRaw
  selfie_quality_raw : QualityRaw
  selfie_liveness_raw : LivenessRaw
  deepface_available : Bool
  deepface_error : String
  model_outcome : ModelName → Except Unit ℚ

/-- The body of `verify_faces` inside its outer `try`: a
`FaceVerificationError` raised by a stage becomes `.error` (message and
stages invoked so far), an explicit `return` becomes `.ok`. -/
def verifyFacesRun (self : EnhancedFaceVerifier) (env : PipelineEnv) :
    Except (String × List Stage) (Response × List Stage) :=
  if ¬ env.id_decodes then .error ("Failed to decode image", [])
  else if ¬ env.selfie_decodes then .error ("Failed to decode image", [])
  else
    let id_faces := (_detect_faces_yolo env.id_detect).1
    let selfie_faces := (_detect_faces_yolo env.selfie_detect).1
    match id_faces, selfie_faces with
    | [], _ =>
        .ok (.rejected (_error_response "No face detected in ID image"
          "verification_failed"), [.detection])
    | _ :: _, [] =>
        .ok (.rejected (_error_response "No face detected in selfie"
          "verification_failed"), [.detection])
    | id_face :: id_rest, selfie_face :: selfie_rest =>
      if id_rest ≠ [] then
        .ok (.rejected (_error_response
          ("Multiple faces detected in ID (" ++ toString (id_rest.length + 1)
            ++ " faces)") "verification_failed"), [.detection])
      else if selfie_rest ≠ [] then
        .ok (.rejected (_error_response
          ("Multiple faces detected in selfie (" ++ toString (selfie_rest.length + 1)
            ++ " faces)") "verification_failed"), [.detection])
      else if id_face.confidence < self.min_confidence then
        .ok (.rejected (_error_response
          ("ID face confidence too low: " ++ fmt2 id_face.confidence)
          "verification_failed"), [.detection])
      else if selfie_face.confidence < self.min_confidence then
        .ok (.rejected (_error_response
          ("Selfie face confidence too low: " ++ fmt2 selfie_face.confidence)
          "verification_failed"), [.detection])
      else
        let id_quality :=
          _assess_face_quality self.min_face_size env.id_quality_raw id_face.bbox
        let selfie_quality :=
          _assess_face_quality self.min_face_size env.selfie_quality_raw selfie_face.bbox
        if id_quality.overall_quality = "poor" then
          .ok (.rejected (_error_response
            "ID image quality too poor. Ensure clear, well-lit photo."
            "verification_failed"), [.detection, .quality])
        else if selfie_quality.overall_quality = "poor" then
          .ok (.rejected (_error_response
            "Selfie quality too poor. Ensure clear, well-lit photo."
            "verification_failed"), [.detection, .quality])
        else
          let live := _check_liveness self.enable_liveness env.selfie_liveness_raw
          if ¬ live.1 then
            .ok (.rejected (_error_response
              "Liveness check failed. Please use a live camera, not a photo."
              "liveness_failed"), [.detection, .quality, .liveness])
          else if ¬ env.deepface_available then
            .error ("DeepFace not available: " ++ env.deepface_error,
              [.detection, .quality, .liveness, .alignment, .ensemble])
          else
            let model_results := ensembleResults env.model_outcome
            let verified_count := verifiedCount model_results
            let is_verified : Bool := verified_count ≥ self.min_models_agree
            let avg_distance :=
              (model_results.map (fun r => r.distance)).sum / (model_results.length : ℚ)
            let message :=
              if is_verified then
                "✓ Face verified successfully! " ++ toString verified_count ++ "/"
                  ++ toString model_results.length ++ " models agree."
              else
                "✗ Face verification failed. Only " ++ toString verified_count ++ "/"
                  ++ toString model_results.length ++ " models agree (need "
                  ++ toString self.min_models_agree ++ ")."
            .ok (.completed
              { verified := is_verified
                message := message
                models_verified := verified_count
                total_models := model_results.length
                required_agreement := self.min_models_agree
                average_distance := roundTo 4 avg_distance
                model_details := model_results.map (fun r =>
                  { model := r.model_name
                    distance := roundTo 4 r.distance
                    threshold := r.threshold
                    verified := r.verified })
                id_quality := id_quality.overall_quality
                selfie_quality := selfie_quality.overall_quality
                id_blur_score := roundTo 2 id_quality.blur_score
                selfie_blur_score := roundTo 2 selfie_quality.blur_score
                liveness_score := roundTo 2 live.2
                liveness_passed := live.1
                id_detection_confidence := roundTo 4 id_face.confidence
                selfie_detection_confidence := roundTo 4 selfie_face.confidence
                similarity_percentage := roundTo 2 ((1 - avg_distance) * 100) },
              [.detection, .quality, .liveness, .alignment, .ensemble])

/-- `verify_faces` with its outer exception handler: a raised
`FaceVerificationError` (or any other exception) is caught and converted to
the `_error_response` dictionary, so the caller always receives a
structured response. -/
def verify_faces (self : EnhancedFaceVerifier) (env : PipelineEnv) :
    Response × List Stage :=
  match verifyFacesRun self env with
  | .ok r => r
  | .error (msg, trace) => (.rejected (_error_response msg "verification_failed"), trace)

/-- `get_enhanced_verifier`: the module-level singleton, modelled by explicit
state passing of the `_enhanced_verifier` global. -/
def get_enhanced_verifier (min_models_agree : ℕ) (enable_liveness : Bool)
    (st : Option EnhancedFaceVerifier) :
    EnhancedFaceVerifier × Option EnhancedFaceVerifier :=
  match st with
  | none =>
      let v := mkEnhancedFaceVerifier min_models_agree enable_liveness
      (v, some v)
  | some v => (v, some v)

/-- `verify_face_enhanced`: wrapper entry point; fetches (or creates) the
singleton and runs `verify_faces` on it. -/
def verify_face_enhanced (min_models_agree : ℕ) (enable_liveness : Bool)
    (st : Option EnhancedFaceVerifier) (env : PipelineEnv) :
    (Response × List Stage) × Option EnhancedFaceVerifier :=
  let v := get_enhanced_verifier min_models_agree enable_liveness st
  (verify_faces v.1 env, v.2)

/-- Default `min_models_agree` of the wrapper entry points
`get_enhanced_verifier` / `verify_face_enhanced`. -/
def wrapperDefaultMinModelsAgree : ℕ := 2

/-- Default `min_models_agree` of `EnhancedFaceVerifier.__init__`. -/
def ctorDefaultMinModelsAgree : ℕ := 3

/-- The machine-readable tag of a response, when it is a rejection. -/
def responseErrorTag : Response → Option String
  | .rejected e => some e.error
  | .completed _ => none

/-- A detection backend that yields no candidates anywhere. -/
def detNone : DetMethod → Except Unit (List FaceCandidate) := fun _ => .ok []

/-- A detection backend whose primary (YOLO) method yields the given
candidates and whose fallbacks yield none. -/
def detYolo (cs : List FaceCandidate) : DetMethod → Except Unit (List FaceCandidate) :=
  fun m => match m with
  | .yolo => .ok cs
  | _ => .ok []

/-- Raw quality measurements that score 4 (sharp, well lit, unoccluded). -/
def goodQualityRaw : QualityRaw :=
  { blur_score := 150, brightness_score := 120, dark_pixels := 0, bright_pixels := 0 }

/-- Raw quality measurements that score 0 (blurry, dark, occluded). -/
def poorQualityRaw : QualityRaw :=
  { blur_score := 0, brightness_score := 0, dark_pixels := 1/2, bright_pixels := 0 }

/-- Raw liveness measurements on which all three signals fire. -/
def goodLivenessRaw : LivenessRaw :=
  { gradient_variance := 100, high_freq_energy := 2000, skin_ratio := 1/2 }

/-- A large, confidently detected face candidate. -/
def faceA : FaceCandidate := { bbox := (0, 0, 100, 100), confidence := 9/10 }

/-- An environment on which every gate passes and every model answers with
distance `0.1` (below all three thresholds). -/
def envBase : PipelineEnv :=
  { id_decodes := true
    selfie_decodes := true
    id_detect := detYolo [faceA]
    selfie_detect := detYolo [faceA]
    id_quality_raw := goodQualityRaw
    selfie_quality_raw := goodQualityRaw
    selfie_liveness_raw := goodLivenessRaw
    deepface_available := true
    deepface_error := ""
    model_outcome := fun _ => .ok (1/10) }

/-- Per-model outcomes in which exactly the ArcFace backend call raises. -/
def outcomeArcFails : ModelName → Except Unit ℚ :=
  fun m => match m with
  | .ArcFace => .error ()
  | _ => .ok (1/10)

/-- Per-model outcomes in which every backend call succeeds with `0.1`. -/
def outcomeAllOk : ModelName → Except Unit ℚ := fun _ => .ok (1/10)

/-- Claim C2. If the backend invocation for one model raises, the verdict of
that model is recorded as `distance = 1.0`, `verified = False` with its own
threshold, the verdicts of the models whose outcomes are unchanged are
unchanged, and the ensemble still records one verdict per configured model
(it is not aborted). -/
theorem model_failure_isolated (o o' : ModelName → Except Unit ℚ) (m : ModelName)
    (hfail : o' m = .error ())
    (hsame : ∀ m2, m2 ≠ m → o' m2 = o m2) :
    _verify_with_model (o' m) m =
      { model_name := m, distance := 1, verified := false,
        threshold := MODEL_THRESHOLDS m }
    ∧ (∀ m2, m2 ≠ m → _verify_with_model (o' m2) m2 = _verify_with_model (o m2) m2)
    ∧ (ensembleResults o').length = modelOrder.length := by
  refine ⟨?_, ?_, ?_⟩
  · rw [hfail]; rfl
  · intro m2 hm2; rw [hsame m2 hm2]
  · simp [ensembleResults]

/-- Witness for C2: the ArcFace backend raising is recorded as the
worst-case verdict while the Facenet512 verdict is untouched and all three
verdicts are still produced. -/
theorem model_failure_isolated_witness :
    _verify_with_model (outcomeArcFails ModelName.ArcFace) ModelName.ArcFace =
      { model_name := ModelName.ArcFace, distance := 1, verified := false,
        threshold := MODEL_THRESHOLDS ModelName.ArcFace }
    ∧ _verify_with_model (outcomeArcFails ModelName.Facenet512) ModelName.Facenet512 =
        _verify_with_model (outcomeAllOk ModelName.Facenet512) ModelName.Facenet512
    ∧ (ensembleResults outcomeArcFails).length = modelOrder.length := by
  have h := model_failure_isolated outcomeAllOk outcomeArcFails ModelName.ArcFace
    rfl (by intro m2 hm2; cases m2 <;> simp_all [outcomeArcFails, outcomeAllOk])
  exact ⟨h.1, h.2.1 ModelName.Facenet512 (by decide), h.2.2⟩

/-- The `high_freq_energy` statistic as the source computes it from the
shifted 2-D Fourier magnitude spectrum (given row-major, one list of
magnitudes per row of the grayscale crop): with `h` the number of rows and
`center_h = h / 2`, it sums `magnitude_spectrum[0 : center_h / 2, :]` —
the first `(h / 2) / 2` rows, i.e. the top quarter of the rows, not the
upper half. -/
def high_freq_energy_of (magnitude_spectrum : List (List ℚ)) : ℚ :=
  let h := magnitude_spectrum.length
  let center_h := h / 2
  ((magnitude_spectrum.take (center_h / 2)).map (fun row => row.sum)).sum

/-- The statistic the claim wording describes instead: the sum of
magnitude over the upper half-rows (`h / 2` rows) of the shifted
spectrum.  Stated only for comparison with `high_freq_energy_of`. -/
def upper_half_energy (magnitude_spectrum : List (List ℚ)) : ℚ :=
  ((magnitude_spectrum.take (magnitude_spectrum.length / 2)).map
    (fun row => row.sum)).sum

/-- A shifted magnitude spectrum of a 4-row crop whose upper-half-row sum
is 1500 while the sum of the rows the source actually takes
(`[0 : (4/2)/2) = [0 : 1)`) is only 500. -/
def specCex : List (List ℚ) := [[500], [1000], [0], [0]]

/-- Liveness measurements on `specCex` with the other two signals off:
the high-frequency energy is the one the source computes. -/
def rawCex : LivenessRaw :=
  { gradient_variance := 0
    high_freq_energy := high_freq_energy_of specCex
    skin_ratio := 0 }

/-- A shifted magnitude spectrum of a 4-row crop whose top-quarter row sum
is 2000 (the `goodLivenessRaw.high_freq_energy` value). -/
def specBase : List (List ℚ) := [[2000], [0], [0], [0]]

/-- Counterexample to C4 as stated: the high-frequency component of the
liveness score is keyed to the sum over the top quarter of the spectrum
rows (`magnitude_spectrum[0:center_h//2, :]` with `center_h = h // 2`),
not the upper half-rows.  On `specCex` the upper-half sum is 1500 > 1000,
yet the computed score is 0, not the 0.3 the claim formula yields. -/
theorem liveness_high_freq_region_cex :
    upper_half_energy specCex > 1000
    ∧ ¬ high_freq_energy_of specCex > 1000
    ∧ (_check_liveness true rawCex).2 = 0
    ∧ ¬ ((_check_liveness true rawCex).2 =
        (if rawCex.gradient_variance > 50 then (4 : ℚ)/10 else 0)
        + (if upper_half_energy specCex > 1000 then (3 : ℚ)/10 else 0)
        + (if rawCex.skin_ratio > (3 : ℚ)/10 then (3 : ℚ)/10 else 0)) := by
  refine ⟨by norm_num [upper_half_energy, specCex], ?_, ?_, ?_⟩ <;>
    norm_num [_check_liveness, rawCex, high_freq_energy_of, specCex,
      upper_half_energy]

/-- Claim C4, amended. The liveness score is the sum of exactly the three
weighted indicator components: 0.4 if the gradient-magnitude variance
exceeds 50, plus 0.3 if the sum of magnitude over the top quarter of the
rows (rows `[0, (h//2)//2)`, i.e. `magnitude_spectrum[0:center_h//2, :]`
of the shifted 2-D Fourier magnitude spectrum — not the upper half-rows)
exceeds 1000, plus 0.3 if the skin-hue ratio exceeds 0.3; the score always
lies in `[0, 1]`, `is_live` equals `score > 0.6`, and disabling liveness
yields `(True, 1.0)`. -/
theorem liveness_score_spec (enable : Bool) (raw : LivenessRaw)
    (magnitude_spectrum : List (List ℚ))
    (hraw : raw.high_freq_energy = high_freq_energy_of magnitude_spectrum) :
    (high_freq_energy_of magnitude_spectrum =
      ((magnitude_spectrum.take ((magnitude_spectrum.length / 2) / 2)).map
        (fun row => row.sum)).sum)
    ∧ (enable = true →
      (_check_liveness enable raw).2 =
        (if raw.gradient_variance > 50 then (4 : ℚ)/10 else 0)
        + (if high_freq_energy_of magnitude_spectrum > 1000 then (3 : ℚ)/10 else 0)
        + (if raw.skin_ratio > (3 : ℚ)/10 then (3 : ℚ)/10 else 0))
    ∧ 0 ≤ (_check_liveness enable raw).2
    ∧ (_check_liveness enable raw).2 ≤ 1
    ∧ (_check_liveness enable raw).1 =
        decide ((_check_liveness enable raw).2 > (6 : ℚ)/10)
    ∧ (enable = false → _check_liveness enable raw = (true, 1)) := by
  refine ⟨rfl, ?_⟩
  rw [← hraw]
  unfold _check_liveness
  cases enable <;> simp <;> (try split_ifs) <;> norm_num

/-- Witness for C4 (amended): on `specBase` the top-quarter row sum is the
2000 carried by `goodLivenessRaw`; with liveness enabled and all three
signals firing the score is `1.0` and the face is judged live; with
liveness disabled the result is `(True, 1.0)`. -/
theorem liveness_score_spec_witness :
    high_freq_energy_of specBase =
      ((specBase.take ((specBase.length / 2) / 2)).map (fun row => row.sum)).sum
    ∧ (_check_liveness true goodLivenessRaw).2 =
        (if goodLivenessRaw.gradient_variance > 50 then (4 : ℚ)/10 else 0)
        + (if high_freq_energy_of specBase > 1000 then (3 : ℚ)/10 else 0)
        + (if goodLivenessRaw.skin_ratio > (3 : ℚ)/10 then (3 : ℚ)/10 else 0)
    ∧ 0 ≤ (_check_liveness true goodLivenessRaw).2
    ∧ (_check_liveness true goodLivenessRaw).2 ≤ 1
    ∧ (_check_liveness true goodLivenessRaw).1 =
        decide ((_check_liveness true goodLivenessRaw).2 > (6 : ℚ)/10)
    ∧ _check_liveness false goodLivenessRaw = (true, 1) := by
  have hraw : goodLivenessRaw.high_freq_energy = high_freq_energy_of specBase := by
    norm_num [goodLivenessRaw, high_freq_energy_of, specBase]
  have h1 := liveness_score_spec true goodLivenessRaw specBase hraw
  have h2 := liveness_score_spec false goodLivenessRaw specBase hraw
  exact ⟨h1.1, h1.2.1 rfl, h1.2.2.1, h1.2.2.2.1, h1.2.2.2.2.1, h2.2.2.2.2.2 rfl⟩

/-- Claim C10. The verifier configuration is frozen at first use: once the
singleton exists, `get_enhanced_verifier` and `verify_face_enhanced` ignore
their arguments and reuse it; the wrapper default agreement quota (2)
differs from the constructor default (3), and which one governs depends on
which entry point performed the first construction. -/
theorem singleton_config_frozen (v : EnhancedFaceVerifier) (a a2 : ℕ)
    (l l2 : Bool) (env : PipelineEnv) :
    (get_enhanced_verifier a l (some v)).1 = v
    ∧ (get_enhanced_verifier a l (some v)).2 = some v
    ∧ (verify_face_enhanced a l (some v) env).1 = verify_faces v env
    ∧ (verify_face_enhanced a l (some v) env).2 = some v
    ∧ (get_enhanced_verifier a2 l2 (get_enhanced_verifier a l none).2).1 =
        mkEnhancedFaceVerifier a l
    ∧ (get_enhanced_verifier wrapperDefaultMinModelsAgree l none).1.min_models_agree = 2
    ∧ (mkEnhancedFaceVerifier ctorDefaultMinModelsAgree l).min_models_agree = 3
    ∧ wrapperDefaultMinModelsAgree ≠ ctorDefaultMinModelsAgree := by
  refine ⟨rfl, rfl, rfl, rfl, rfl, rfl, rfl, by decide⟩

/-- A detection backend whose primary (YOLO) method raises, whose Haar
fallback yields the given candidates, and whose other fallbacks yield none. -/
def detYoloRaises : DetMethod → Except Unit (List FaceCandidate) :=
  fun m => match m with
  | .yolo => .error ()
  | .haar => .ok [faceA]
  | _ => .ok []

/-- Claim C7. The cascade tries YOLO, Haar, MediaPipe, OpenCV DNN in that
fixed order, returns the candidates of the first method that yields at
least one without invoking later methods (the invocation trace stops
there), and a method whose backend raises behaves exactly as if it had
returned zero candidates, the cascade proceeding to the next method. -/
theorem detection_cascade_priority
    (backend : DetMethod → Except Unit (List FaceCandidate)) (m : DetMethod) :
    (runDetector (backend .yolo) ≠ [] →
      _detect_faces_yolo backend = (runDetector (backend .yolo), [.yolo]))
    ∧ (runDetector (backend .yolo) = [] → runDetector (backend .haar) ≠ [] →
      _detect_faces_yolo backend = (runDetector (backend .haar), [.yolo, .haar]))
    ∧ (runDetector (backend .yolo) = [] → runDetector (backend .haar) = [] →
       runDetector (backend .mediapipe) ≠ [] →
      _detect_faces_yolo backend =
        (runDetector (backend .mediapipe), [.yolo, .haar, .mediapipe]))
    ∧ (runDetector (backend .yolo) = [] → runDetector (backend .haar) = [] →
       runDetector (backend .mediapipe) = [] →
      _detect_faces_yolo backend =
        (runDetector (backend .dnn), [.yolo, .haar, .mediapipe, .dnn]))
    ∧ (backend m = .error () →
      _detect_faces_yolo backend =
        _detect_faces_yolo (fun m2 => if m2 = m then .ok [] else backend m2)) := by
  refine ⟨?_, ?_, ?_, ?_, ?_⟩
  · intro h1; simp [_detect_faces_yolo, h1]
  · intro h1 h2; simp [_detect_faces_yolo, h1, h2]
  · intro h1 h2 h3; simp [_detect_faces_yolo, h1, h2, h3]
  · intro h1 h2 h3; simp [_detect_faces_yolo, h1, h2, h3]
  · intro hm
    cases m <;> simp [_detect_faces_yolo, runDetector, hm]

/-- Witness for C7: a primary detection hit short-circuits the cascade,
and a raising primary detector is equivalent to one that found nothing. -/
theorem detection_cascade_priority_witness :
    _detect_faces_yolo (detYolo [faceA]) =
      (runDetector (detYolo [faceA] DetMethod.yolo), [DetMethod.yolo])
    ∧ _detect_faces_yolo detYoloRaises =
        _detect_faces_yolo
          (fun m2 => if m2 = DetMethod.yolo then .ok [] else detYoloRaises m2) := by
  refine ⟨(detection_cascade_priority (detYolo [faceA]) DetMethod.yolo).1 (by decide),
    (detection_cascade_priority detYoloRaises DetMethod.yolo).2.2.2.2 rfl⟩

/-- A box with strictly positive area. -/
def boxPositive : ℤ × ℤ × ℤ × ℤ → Prop
  | (x1, y1, x2, y2) => x1 < x2 ∧ y1 < y2

/-- A box of zero area. -/
def boxZeroArea : ℤ × ℤ × ℤ × ℤ → Prop
  | (x1, y1, x2, y2) => (x2 - x1) * (y2 - y1) = 0

/-- Two boxes whose intersection rectangle is empty (they do not overlap). -/
def boxSeparated : ℤ × ℤ × ℤ × ℤ → ℤ × ℤ × ℤ × ℤ → Prop
  | (x1a, y1a, x2a, y2a), (x1b, y1b, x2b, y2b) =>
    min x2a x2b ≤ max x1a x1b ∨ min y2a y2b ≤ max y1a y1b

/-- Counterexample to C8 as stated: on the degenerate (zero-area) box
`(0,0,0,0)`, `_bbox_overlap(a, a)` is `0`, not `1.0` (the `union == 0`
guard fires), so `IoU(a,a) == 1.0` does not hold for all boxes. -/
theorem bbox_overlap_cex :
    _bbox_overlap (0, 0, 0, 0) (0, 0, 0, 0) = 0
    ∧ ¬ _bbox_overlap (0, 0, 0, 0) (0, 0, 0, 0) = 1 := by
  constructor <;> norm_num [_bbox_overlap]

/-- Claim C8, amended. `_bbox_overlap(a,a) = 1` for every box of positive
area (for a zero-area box the `union == 0` guard makes it `0` instead);
`_bbox_overlap` is symmetric for all boxes; and it returns `0` whenever
the boxes do not overlap or either has zero area. -/
theorem bbox_overlap_props (a b : ℤ × ℤ × ℤ × ℤ) :
    (boxPositive a → _bbox_overlap a a = 1)
    ∧ _bbox_overlap a b = _bbox_overlap b a
    ∧ (boxSeparated a b ∨ boxZeroArea a ∨ boxZeroArea b →
        _bbox_overlap a b = 0) := by
  obtain ⟨x1a, y1a, x2a, y2a⟩ := a
  obtain ⟨x1b, y1b, x2b, y2b⟩ := b
  refine ⟨?_, ?_, ?_⟩
  · rintro ⟨hx, hy⟩
    have hi : (0 : ℤ) < (x2a - x1a) * (y2a - y1a) := mul_pos (by omega) (by omega)
    have hiq : (0 : ℚ) < (((x2a - x1a) * (y2a - y1a) : ℤ) : ℚ) := by exact_mod_cast hi
    simp only [_bbox_overlap, min_self, max_self]
    rw [if_neg (by omega : ¬ (x2a < x1a ∨ y2a < y1a))]
    have harith :
        (((x2a - x1a) * (y2a - y1a) : ℤ) : ℚ)
          + (((x2a - x1a) * (y2a - y1a) : ℤ) : ℚ)
          - (((x2a - x1a) * (y2a - y1a) : ℤ) : ℚ)
        = (((x2a - x1a) * (y2a - y1a) : ℤ) : ℚ) := by ring
    rw [harith, if_neg hiq.ne', div_self hiq.ne']
  · simp only [_bbox_overlap]
    rw [min_comm x2b x2a, min_comm y2b y2a, max_comm x1b x1a, max_comm y1b y1a,
      add_comm (((x2b - x1b) * (y2b - y1b) : ℤ) : ℚ) (((x2a - x1a) * (y2a - y1a) : ℤ) : ℚ)]
  · intro hcase
    simp only [_bbox_overlap]
    by_cases hc : min x2a x2b < max x1a x1b ∨ min y2a y2b < max y1a y1b
    · rw [if_pos hc]
    · rw [if_neg hc]
      have hI : (min x2a x2b - max x1a x1b) * (min y2a y2b - max y1a y1b) = 0 := by
        rcases hcase with hsep | hza | hzb
        · rcases hsep with hx | hy
          · exact mul_eq_zero_of_left (by omega) _
          · exact mul_eq_zero_of_right _ (by omega)
        · rcases mul_eq_zero.mp hza with hx | hy
          · exact mul_eq_zero_of_left (by omega) _
          · exact mul_eq_zero_of_right _ (by omega)
        · rcases mul_eq_zero.mp hzb with hx | hy
          · exact mul_eq_zero_of_left (by omega) _
          · exact mul_eq_zero_of_right _ (by omega)
      have hIq : (((min x2a x2b - max x1a x1b) * (min y2a y2b - max y1a y1b) : ℤ) : ℚ) = 0 := by
        exact_mod_cast hI
      rw [hIq]
      split_ifs with h <;> simp

/-- Witness for C8 (amended): a unit box has IoU `1` with itself, symmetry
holds at a concrete pair, and two separated boxes have IoU `0`. -/
theorem bbox_overlap_props_witness :
    _bbox_overlap (0, 0, 2, 2) (0, 0, 2, 2) = 1
    ∧ _bbox_overlap (0, 0, 2, 2) (5, 5, 9, 9) = _bbox_overlap (5, 5, 9, 9) (0, 0, 2, 2)
    ∧ _bbox_overlap (0, 0, 2, 2) (5, 5, 9, 9) = 0 := by
  have h1 := bbox_overlap_props (0, 0, 2, 2) (0, 0, 2, 2)
  have h2 := bbox_overlap_props (0, 0, 2, 2) (5, 5, 9, 9)
  exact ⟨h1.1 ⟨by decide, by decide⟩, h2.2.1,
    h2.2.2 (Or.inl (Or.inl (by decide)))⟩

/-- The additive quality score computed inside `_assess_face_quality`
(start at 0; +1 sharp; +1 well lit; +1 large enough; +1 unoccluded). -/
def qualityScore (min_face_size : ℤ) (raw : QualityRaw) (bbox : ℤ × ℤ × ℤ × ℤ) : ℕ :=
  let (x1, y1, x2, y2) := bbox
  let face_size : ℤ × ℤ := (x2 - x1, y2 - y1)
  let has_occlusion : Bool :=
    raw.dark_pixels > (3 : ℚ)/10 ∨ raw.bright_pixels > (3 : ℚ)/10
  (if raw.blur_score > 100 then 1 else 0)
  + (if 50 < raw.brightness_score ∧ raw.brightness_score < 200 then 1 else 0)
  + (if face_size.1 ≥ min_face_size ∧ face_size.2 ≥ min_face_size then 1 else 0)
  + (if ¬ has_occlusion then 1 else 0)

/-- The tier mapping `_assess_face_quality` applies to the quality score. -/
def tierOf (quality_score : ℕ) : String :=
  if quality_score ≥ 3 then "excellent"
  else if quality_score = 2 then "good"
  else if quality_score = 1 then "fair"
  else "poor"

/-- Numeric rank of the tier labels, for the order Poor < Fair < Good <
Excellent. -/
def qualityRank (tier : String) : ℕ :=
  if tier = "excellent" then 3
  else if tier = "good" then 2
  else if tier = "fair" then 1
  else 0

/-- `_assess_face_quality` labels the crop with the tier of its score. -/
theorem assess_overall_eq (mfs : ℤ) (raw : QualityRaw) (bbox : ℤ × ℤ × ℤ × ℤ) :
    (_assess_face_quality mfs raw bbox).overall_quality =
      tierOf (qualityScore mfs raw bbox) := by
  obtain ⟨x1, y1, x2, y2⟩ := bbox
  rfl

/-- The occlusion flag of `_assess_face_quality` in terms of the raw
dark/bright pixel fractions. -/
theorem assess_occlusion_eq (mfs : ℤ) (raw : QualityRaw) (bbox : ℤ × ℤ × ℤ × ℤ) :
    (_assess_face_quality mfs raw bbox).has_occlusion =
      decide (raw.dark_pixels > (3 : ℚ)/10 ∨ raw.bright_pixels > (3 : ℚ)/10) := by
  obtain ⟨x1, y1, x2, y2⟩ := bbox
  rfl

/-- A 0/1 indicator is monotone along an implication of its conditions. -/
theorem ite_one_zero_mono {p q : Prop} [Decidable p] [Decidable q] (hpq : p → q) :
    (if p then (1 : ℕ) else 0) ≤ (if q then 1 else 0) := by
  split_ifs with hp hq
  · exact le_rfl
  · exact absurd (hpq hp) hq
  · exact Nat.zero_le _
  · exact le_rfl

/-- The tier rank is monotone in the quality score. -/
theorem qualityRank_tierOf_mono (s s2 : ℕ) (h : s ≤ s2) :
    qualityRank (tierOf s) ≤ qualityRank (tierOf s2) := by
  unfold tierOf
  split_ifs <;> simp [qualityRank] <;> omega

/-- Claim C9. Quality scoring is monotonic: with the crop fixed, not
decreasing the blur variance, keeping the brightness in the `(50, 200)`
band whenever it already was there, and only ever removing (never adding)
occlusion cannot move the overall tier down in the order
Poor < Fair < Good < Excellent. -/
theorem quality_tier_monotone (mfs : ℤ) (raw raw2 : QualityRaw)
    (bbox : ℤ × ℤ × ℤ × ℤ)
    (hblur : raw.blur_score ≤ raw2.blur_score)
    (hbright : 50 < raw.brightness_score ∧ raw.brightness_score < 200 →
      50 < raw2.brightness_score ∧ raw2.brightness_score < 200)
    (hocc : (_assess_face_quality mfs raw2 bbox).has_occlusion = true →
      (_assess_face_quality mfs raw bbox).has_occlusion = true) :
    qualityRank (_assess_face_quality mfs raw bbox).overall_quality ≤
      qualityRank (_assess_face_quality mfs raw2 bbox).overall_quality := by
  rw [assess_overall_eq, assess_overall_eq]
  apply qualityRank_tierOf_mono
  rw [assess_occlusion_eq, assess_occlusion_eq] at hocc
  obtain ⟨x1, y1, x2, y2⟩ := bbox
  simp only [qualityScore]
  refine Nat.add_le_add (Nat.add_le_add (Nat.add_le_add ?_ ?_) le_rfl) ?_
  · exact ite_one_zero_mono (fun h => lt_of_lt_of_le h hblur)
  · exact ite_one_zero_mono hbright
  · exact ite_one_zero_mono (mt hocc)

/-- Witness for C9: going from blurred/dark/occluded raw measurements to
sharp/lit/unoccluded ones does not lower the tier (it rises from poor to
excellent here). -/
theorem quality_tier_monotone_witness :
    qualityRank (_assess_face_quality 60 poorQualityRaw faceA.bbox).overall_quality ≤
      qualityRank (_assess_face_quality 60 goodQualityRaw faceA.bbox).overall_quality :=
  quality_tier_monotone 60 poorQualityRaw goodQualityRaw faceA.bbox
    (by norm_num [poorQualityRaw, goodQualityRaw])
    (by intro h; exact absurd h.1 (by norm_num [poorQualityRaw]))
    (by rw [assess_occlusion_eq, assess_occlusion_eq]
        norm_num [poorQualityRaw, goodQualityRaw])

/-- A small (below the 60px minimum) but confidently detected candidate. -/
def faceSmall : FaceCandidate := { bbox := (0, 0, 10, 10), confidence := 9/10 }

/-- An environment identical to `envBase` except that the ID face is small
and its raw quality measurements are blurred, dark and occluded, so the ID
quality score is 0 (tier poor). -/
def envPoorQuality : PipelineEnv :=
  { envBase with id_detect := detYolo [faceSmall], id_quality_raw := poorQualityRaw }

/-- Counterexample to C6 as stated: on a pipeline run rejected for poor ID
quality, the machine-readable tag of the structured rejection is the
generic `"verification_failed"`, not `"quality_too_poor"` (the source
passes no specific error code at the quality gate). -/
theorem quality_gate_tag_cex :
    responseErrorTag (verify_faces (mkEnhancedFaceVerifier 3 true) envPoorQuality).1 =
      some "verification_failed"
    ∧ ¬ responseErrorTag (verify_faces (mkEnhancedFaceVerifier 3 true) envPoorQuality).1 =
        some "quality_too_poor" := by
  constructor <;>
    · norm_num [verify_faces, verifyFacesRun, envPoorQuality, envBase,
        mkEnhancedFaceVerifier, detYolo, faceA, faceSmall, _detect_faces_yolo,
        runDetector, _assess_face_quality, goodQualityRaw, poorQualityRaw,
        _error_response, responseErrorTag]
      try decide

/-- Claim C6, amended. The quality score starts at 0 and adds 1 for each of
sharpness (`blur_score > 100`), brightness in `(50, 200)`, both crop
dimensions at least the minimum face size, and absence of occlusion; the
tier is excellent for score ≥ 3, good for 2, fair for 1, poor for 0; and,
once control reaches the quality stage, the pipeline rejects exactly when
the tier of either image is poor — with the generic machine tag
`"verification_failed"` and a "quality too poor" message (the specific tag
`quality_too_poor` of the claim does not exist in the code) — while any
other tier combination passes through to the liveness stage. -/
theorem quality_scoring_and_gate (self : EnhancedFaceVerifier) (env : PipelineEnv)
    (mfs : ℤ) (raw : QualityRaw) (bbox : ℤ × ℤ × ℤ × ℤ) (f g : FaceCandidate)
    (a : ℕ) (l : Bool)
    (hdec : env.id_decodes = true) (hdec2 : env.selfie_decodes = true)
    (hid : (_detect_faces_yolo env.id_detect).1 = [f])
    (hsel : (_detect_faces_yolo env.selfie_detect).1 = [g])
    (hconf1 : ¬ f.confidence < self.min_confidence)
    (hconf2 : ¬ g.confidence < self.min_confidence) :
    (mkEnhancedFaceVerifier a l).min_face_size = 60
    ∧ (qualityScore mfs raw bbox =
      (if raw.blur_score > 100 then 1 else 0)
      + (if 50 < raw.brightness_score ∧ raw.brightness_score < 200 then 1 else 0)
      + (if (_assess_face_quality mfs raw bbox).face_size.1 ≥ mfs
            ∧ (_assess_face_quality mfs raw bbox).face_size.2 ≥ mfs then 1 else 0)
      + (if ¬ (_assess_face_quality mfs raw bbox).has_occlusion then 1 else 0))
    ∧ ((_assess_face_quality mfs raw bbox).overall_quality =
        if qualityScore mfs raw bbox ≥ 3 then "excellent"
        else if qualityScore mfs raw bbox = 2 then "good"
        else if qualityScore mfs raw bbox = 1 then "fair"
        else "poor")
    ∧ ((_assess_face_quality self.min_face_size env.id_quality_raw f.bbox).overall_quality
          = "poor" →
        verify_faces self env =
          (.rejected (_error_response
            "ID image quality too poor. Ensure clear, well-lit photo."
            "verification_failed"), [.detection, .quality]))
    ∧ ((_assess_face_quality self.min_face_size env.id_quality_raw f.bbox).overall_quality
          ≠ "poor" →
       (_assess_face_quality self.min_face_size env.selfie_quality_raw g.bbox).overall_quality
          = "poor" →
        verify_faces self env =
          (.rejected (_error_response
            "Selfie quality too poor. Ensure clear, well-lit photo."
            "verification_failed"), [.detection, .quality]))
    ∧ ((_assess_face_quality self.min_face_size env.id_quality_raw f.bbox).overall_quality
          ≠ "poor" →
       (_assess_face_quality self.min_face_size env.selfie_quality_raw g.bbox).overall_quality
          ≠ "poor" →
        Stage.liveness ∈ (verify_faces self env).2) := by
  refine ⟨rfl, ?_, ?_, ?_, ?_, ?_⟩
  · obtain ⟨x1, y1, x2, y2⟩ := bbox
    rfl
  · rw [assess_overall_eq]
    rfl
  · intro hpoor
    simp only [verify_faces, verifyFacesRun, hdec, hdec2, hid, hsel]
    simp [hconf1, hconf2, hpoor]
  · intro h1 h2
    simp only [verify_faces, verifyFacesRun, hdec, hdec2, hid, hsel]
    simp [hconf1, hconf2, h1, h2]
  · intro h1 h2
    simp only [verify_faces, verifyFacesRun, hdec, hdec2, hid, hsel]
    simp [hconf1, hconf2, h1, h2]
    split_ifs <;> simp

/-- Witness for C6 (amended): on a run whose selfie quality is poor while
the ID quality is excellent, the pipeline rejects with the quality message
after the quality stage; the scoring clauses are exercised on the poor raw
measurements. -/
theorem quality_scoring_and_gate_witness :
    (mkEnhancedFaceVerifier 3 true).min_face_size = 60
    ∧ (qualityScore 60 poorQualityRaw faceA.bbox =
      (if poorQualityRaw.blur_score > 100 then 1 else 0)
      + (if 50 < poorQualityRaw.brightness_score ∧ poorQualityRaw.brightness_score < 200
          then 1 else 0)
      + (if (_assess_face_quality 60 poorQualityRaw faceA.bbox).face_size.1 ≥ 60
            ∧ (_assess_face_quality 60 poorQualityRaw faceA.bbox).face_size.2 ≥ 60
          then 1 else 0)
      + (if ¬ (_assess_face_quality 60 poorQualityRaw faceA.bbox).has_occlusion
          then 1 else 0))
    ∧ ((_assess_face_quality 60 poorQualityRaw faceA.bbox).overall_quality =
        if qualityScore 60 poorQualityRaw faceA.bbox ≥ 3 then "excellent"
        else if qualityScore 60 poorQualityRaw faceA.bbox = 2 then "good"
        else if qualityScore 60 poorQualityRaw faceA.bbox = 1 then "fair"
        else "poor")
    ∧ verify_faces (mkEnhancedFaceVerifier 3 true)
        { envBase with selfie_detect := detYolo [faceSmall],
                       selfie_quality_raw := poorQualityRaw } =
      (.rejected (_error_response
        "Selfie quality too poor. Ensure clear, well-lit photo."
        "verification_failed"), [.detection, .quality]) := by
  have h := quality_scoring_and_gate (mkEnhancedFaceVerifier 3 true)
    { envBase with selfie_detect := detYolo [faceSmall],
                   selfie_quality_raw := poorQualityRaw }
    60 poorQualityRaw faceA.bbox faceA faceSmall 3 true rfl rfl rfl rfl
    (by norm_num [faceA, mkEnhancedFaceVerifier])
    (by norm_num [faceSmall, mkEnhancedFaceVerifier])
  refine ⟨h.1, h.2.1, h.2.2.1, h.2.2.2.2.1 ?_ ?_⟩
  · rw [assess_overall_eq]
    norm_num [qualityScore, tierOf, goodQualityRaw, faceA, envBase, mkEnhancedFaceVerifier]
    try decide
  · rw [assess_overall_eq]
    norm_num [qualityScore, tierOf, poorQualityRaw, faceSmall, mkEnhancedFaceVerifier]
    try decide

/-- An environment identical to `envBase` except that no detector finds a
face in the ID image. -/
def envNoFace : PipelineEnv := { envBase with id_detect := detNone }

/-- Counterexample to C3 as stated: the structured rejection for a missing
face carries the generic machine tag `"verification_failed"`, not
`"no_face_detected"` (the single-face and confidence gates all use the
default error code of the source; the distinguishing information is only in the
human-readable message). -/
theorem single_face_gate_tag_cex :
    responseErrorTag (verify_faces (mkEnhancedFaceVerifier 3 true) envNoFace).1 =
      some "verification_failed"
    ∧ ¬ responseErrorTag (verify_faces (mkEnhancedFaceVerifier 3 true) envNoFace).1 =
        some "no_face_detected" := by
  constructor <;>
    · norm_num [verify_faces, verifyFacesRun, envNoFace, envBase,
        mkEnhancedFaceVerifier, detYolo, detNone, faceA, _detect_faces_yolo,
        runDetector, _error_response, responseErrorTag]
      try decide

/-- Claim C3, amended. After detection the pipeline requires exactly one
candidate per image: zero candidates in either image, more than one
candidate in either image, and a single candidate below the confidence
floor (0.6 under the constructor defaults) each produce a structured
rejection whose human-readable message identifies the case but whose
machine tag is the generic `"verification_failed"` (the specific tags
`no_face_detected` / `multiple_faces_detected` / `low_confidence_detection`
of the claim do not exist in the code); in each case the invocation trace
stops at detection, so the quality, liveness, alignment and ensemble
stages are never invoked. -/
theorem single_face_gate (self : EnhancedFaceVerifier) (env : PipelineEnv)
    (f g : FaceCandidate) (a : ℕ) (l : Bool)
    (hdec : env.id_decodes = true) (hdec2 : env.selfie_decodes = true) :
    (mkEnhancedFaceVerifier a l).min_confidence = 6/10
    ∧ ((_detect_faces_yolo env.id_detect).1 = [] →
      verify_faces self env =
        (.rejected (_error_response "No face detected in ID image"
          "verification_failed"), [.detection]))
    ∧ ((_detect_faces_yolo env.id_detect).1 ≠ [] →
       (_detect_faces_yolo env.selfie_detect).1 = [] →
      verify_faces self env =
        (.rejected (_error_response "No face detected in selfie"
          "verification_failed"), [.detection]))
    ∧ (1 < (_detect_faces_yolo env.id_detect).1.length →
       (_detect_faces_yolo env.selfie_detect).1 ≠ [] →
      verify_faces self env =
        (.rejected (_error_response
          ("Multiple faces detected in ID ("
            ++ toString (_detect_faces_yolo env.id_detect).1.length ++ " faces)")
          "verification_failed"), [.detection]))
    ∧ ((_detect_faces_yolo env.id_detect).1 = [f] →
       1 < (_detect_faces_yolo env.selfie_detect).1.length →
      verify_faces self env =
        (.rejected (_error_response
          ("Multiple faces detected in selfie ("
            ++ toString (_detect_faces_yolo env.selfie_detect).1.length ++ " faces)")
          "verification_failed"), [.detection]))
    ∧ ((_detect_faces_yolo env.id_detect).1 = [f] →
       (_detect_faces_yolo env.selfie_detect).1 = [g] →
       f.confidence < self.min_confidence →
      verify_faces self env =
        (.rejected (_error_response
          ("ID face confidence too low: " ++ fmt2 f.confidence)
          "verification_failed"), [.detection]))
    ∧ ((_detect_faces_yolo env.id_detect).1 = [f] →
       (_detect_faces_yolo env.selfie_detect).1 = [g] →
       ¬ f.confidence < self.min_confidence →
       g.confidence < self.min_confidence →
      verify_faces self env =
        (.rejected (_error_response
          ("Selfie face confidence too low: " ++ fmt2 g.confidence)
          "verification_failed"), [.detection])) := by
  refine ⟨rfl, ?_, ?_, ?_, ?_, ?_, ?_⟩
  · intro h1
    simp only [verify_faces, verifyFacesRun, hdec, hdec2, h1]
    simp
  · intro h1 h2
    rcases hid : (_detect_faces_yolo env.id_detect).1 with _ | ⟨x, xs⟩
    · exact absurd hid h1
    · simp only [verify_faces, verifyFacesRun, hdec, hdec2, hid, h2]
      simp
  · intro h1 h2
    rcases hid : (_detect_faces_yolo env.id_detect).1 with _ | ⟨x, xs⟩
    · rw [hid] at h1; simp at h1
    · rcases xs with _ | ⟨y, ys⟩
      · rw [hid] at h1; simp at h1
      · rcases hsel : (_detect_faces_yolo env.selfie_detect).1 with _ | ⟨z, zs⟩
        · exact absurd hsel h2
        · simp only [verify_faces, verifyFacesRun, hdec, hdec2, hid, hsel]
          simp [List.length_cons]
  · intro h1 h2
    rcases hsel : (_detect_faces_yolo env.selfie_detect).1 with _ | ⟨z, zs⟩
    · rw [hsel] at h2; simp at h2
    · rcases zs with _ | ⟨w, ws⟩
      · rw [hsel] at h2; simp at h2
      · simp only [verify_faces, verifyFacesRun, hdec, hdec2, h1, hsel]
        simp [List.length_cons]
  · intro h1 h2 h3
    simp only [verify_faces, verifyFacesRun, hdec, hdec2, h1, h2]
    simp [h3]
  · intro h1 h2 h3 h4
    simp only [verify_faces, verifyFacesRun, hdec, hdec2, h1, h2]
    simp [h3, h4]

/-- Witness for C3 (amended): with no face in the ID image the pipeline
rejects with the no-face message, the tag `"verification_failed"`, and a
trace that stops at detection; the constructor confidence floor is 0.6. -/
theorem single_face_gate_witness :
    (mkEnhancedFaceVerifier 3 true).min_confidence = 6/10
    ∧ verify_faces (mkEnhancedFaceVerifier 3 true) envNoFace =
      (.rejected (_error_response "No face detected in ID image"
        "verification_failed"), [.detection]) := by
  have h := single_face_gate (mkEnhancedFaceVerifier 3 true) envNoFace
    faceA faceA 3 true rfl rfl
  exact ⟨h.1, h.2.1 (by norm_num [envNoFace, envBase, detNone, _detect_faces_yolo,
    runDetector])⟩

/-- Every success payload `verify_faces` returns carries the ensemble
decision computed from the per-model outcomes of its environment. -/
theorem completed_payload_facts (self : EnhancedFaceVerifier) (env : PipelineEnv)
    (p : SuccessPayload) (h : (verify_faces self env).1 = .completed p) :
    p.verified = decide (verifiedCount (ensembleResults env.model_outcome)
        ≥ self.min_models_agree)
    ∧ p.models_verified = verifiedCount (ensembleResults env.model_outcome)
    ∧ p.required_agreement = self.min_models_agree := by
  by_cases hd1 : env.id_decodes = true
  case neg => unfold verify_faces verifyFacesRun at h; simp [hd1] at h
  by_cases hd2 : env.selfie_decodes = true
  case neg => unfold verify_faces verifyFacesRun at h; simp [hd1, hd2] at h
  rcases hidf : (_detect_faces_yolo env.id_detect).1 with _ | ⟨f0, fr⟩
  · unfold verify_faces verifyFacesRun at h; simp [hd1, hd2, hidf] at h
  rcases hsdf : (_detect_faces_yolo env.selfie_detect).1 with _ | ⟨g0, gr⟩
  · unfold verify_faces verifyFacesRun at h; simp [hd1, hd2, hidf, hsdf] at h
  by_cases hm1 : fr = []
  case neg =>
    unfold verify_faces verifyFacesRun at h; simp [hd1, hd2, hidf, hsdf, hm1] at h
  subst hm1
  by_cases hm2 : gr = []
  case neg =>
    unfold verify_faces verifyFacesRun at h; simp [hd1, hd2, hidf, hsdf, hm2] at h
  subst hm2
  by_cases hc1 : f0.confidence < self.min_confidence
  case pos =>
    unfold verify_faces verifyFacesRun at h; simp [hd1, hd2, hidf, hsdf, hc1] at h
  by_cases hc2 : g0.confidence < self.min_confidence
  case pos =>
    unfold verify_faces verifyFacesRun at h
    simp [hd1, hd2, hidf, hsdf, hc1, hc2] at h
  by_cases hq1 : (_assess_face_quality self.min_face_size env.id_quality_raw
      f0.bbox).overall_quality = "poor"
  case pos =>
    unfold verify_faces verifyFacesRun at h
    simp [hd1, hd2, hidf, hsdf, hc1, hc2, hq1] at h
  by_cases hq2 : (_assess_face_quality self.min_face_size env.selfie_quality_raw
      g0.bbox).overall_quality = "poor"
  case pos =>
    unfold verify_faces verifyFacesRun at h
    simp [hd1, hd2, hidf, hsdf, hc1, hc2, hq1, hq2] at h
  by_cases hl : (_check_liveness self.enable_liveness env.selfie_liveness_raw).1 = true
  case neg =>
    unfold verify_faces verifyFacesRun at h
    simp [hd1, hd2, hidf, hsdf, hc1, hc2, hq1, hq2, hl] at h
  by_cases hdf : env.deepface_available = true
  case neg =>
    unfold verify_faces verifyFacesRun at h
    simp [hd1, hd2, hidf, hsdf, hc1, hc2, hq1, hq2, hl, hdf] at h
  unfold verify_faces verifyFacesRun at h
  simp [hd1, hd2, hidf, hsdf, hc1, hc2, hq1, hq2, hl, hdf] at h
  subst h
  exact ⟨rfl, rfl, rfl⟩

/-- Claim C1. For every ensemble decision produced by `verify_faces`, the
final verified flag equals `agree_count ≥ required_agreement`, the agree
count is exactly the number of per-model verdicts whose verified flag is
true, and the verified flag of each per-model verdict equals
`distance < threshold` for the corresponding entry of the threshold table, for
every combination of per-model outcomes. -/
theorem ensemble_decision_invariant (self : EnhancedFaceVerifier)
    (env : PipelineEnv) (p : SuccessPayload)
    (h : (verify_faces self env).1 = .completed p) :
    p.verified = decide (p.models_verified ≥ p.required_agreement)
    ∧ p.required_agreement = self.min_models_agree
    ∧ p.models_verified =
        ((ensembleResults env.model_outcome).filter (fun r => r.verified)).length
    ∧ ∀ r ∈ ensembleResults env.model_outcome,
        r.verified = decide (r.distance < MODEL_THRESHOLDS r.model_name) := by
  obtain ⟨h1, h2, h3⟩ := completed_payload_facts self env p h
  refine ⟨?_, h3, h2, ?_⟩
  · rw [h2, h3]
    exact h1
  · intro r hr
    simp only [ensembleResults, List.mem_map] at hr
    obtain ⟨m, _, rfl⟩ := hr
    rcases ho : env.model_outcome m with u | d
    · cases m <;> simp [_verify_with_model, MODEL_THRESHOLDS] <;> norm_num
    · simp [_verify_with_model]

/-- The success payload `verify_faces` produces on `envBase` under the
all-three-models configuration. -/
def basePayload : SuccessPayload :=
  { verified := true
    message := "✓ Face verified successfully! 3/3 models agree."
    models_verified := 3
    total_models := 3
    required_agreement := 3
    average_distance := 1/10
    model_details := [
      { model := .ArcFace, distance := 1/10, threshold := 15/100, verified := true },
      { model := .Facenet512, distance := 1/10, threshold := 25/100, verified := true },
      { model := .VGGFace, distance := 1/10, threshold := 30/100, verified := true }]
    id_quality := "excellent"
    selfie_quality := "excellent"
    id_blur_score := 150
    selfie_blur_score := 150
    liveness_score := 1
    liveness_passed := true
    id_detection_confidence := 9/10
    selfie_detection_confidence := 9/10
    similarity_percentage := 90 }

/-- `verify_faces` on `envBase` with the all-models configuration reaches
the ensemble and returns `basePayload`. -/
theorem verify_faces_envBase :
    (verify_faces (mkEnhancedFaceVerifier 3 true) envBase).1 =
      .completed basePayload := by
  norm_num [verify_faces, verifyFacesRun, envBase, mkEnhancedFaceVerifier, detYolo,
    faceA, _detect_faces_yolo, runDetector, _assess_face_quality, goodQualityRaw,
    _check_liveness, goodLivenessRaw, ensembleResults, modelOrder,
    _verify_with_model, MODEL_THRESHOLDS, verifiedCount, roundTo, roundHalfEven,
    _error_response, basePayload]
  simp
  decide

/-- Witness for C1: the concrete success payload of `envBase` satisfies
the ensemble invariants, and the flag of the ArcFace verdict equals its
distance/threshold comparison. -/
theorem ensemble_decision_invariant_witness :
    basePayload.verified =
      decide (basePayload.models_verified ≥ basePayload.required_agreement)
    ∧ basePayload.required_agreement = (mkEnhancedFaceVerifier 3 true).min_models_agree
    ∧ basePayload.models_verified =
        ((ensembleResults envBase.model_outcome).filter (fun r => r.verified)).length
    ∧ (_verify_with_model (envBase.model_outcome ModelName.ArcFace)
          ModelName.ArcFace).verified =
        decide ((_verify_with_model (envBase.model_outcome ModelName.ArcFace)
            ModelName.ArcFace).distance <
          MODEL_THRESHOLDS (_verify_with_model (envBase.model_outcome ModelName.ArcFace)
            ModelName.ArcFace).model_name) := by
  have h := ensemble_decision_invariant (mkEnhancedFaceVerifier 3 true) envBase
    basePayload verify_faces_envBase
  exact ⟨h.1, h.2.1, h.2.2.1,
    h.2.2.2 _ (List.mem_map_of_mem _ (by simp [modelOrder]))⟩

/-- All gates up to and including liveness pass, with `f`/`g` the single
detected ID and selfie candidates. -/
def gatesPass (self : EnhancedFaceVerifier) (env : PipelineEnv)
    (f g : FaceCandidate) : Prop :=
  env.id_decodes = true ∧ env.selfie_decodes = true
  ∧ (_detect_faces_yolo env.id_detect).1 = [f]
  ∧ (_detect_faces_yolo env.selfie_detect).1 = [g]
  ∧ ¬ f.confidence < self.min_confidence
  ∧ ¬ g.confidence < self.min_confidence
  ∧ (_assess_face_quality self.min_face_size env.id_quality_raw f.bbox).overall_quality
      ≠ "poor"
  ∧ (_assess_face_quality self.min_face_size env.selfie_quality_raw g.bbox).overall_quality
      ≠ "poor"
  ∧ (_check_liveness self.enable_liveness env.selfie_liveness_raw).1 = true

/-- An environment on which every gate passes but the embedding backend
(DeepFace) cannot be imported. -/
def envNoDeepface : PipelineEnv :=
  { envBase with deepface_available := false, deepface_error := "import failed" }

/-- An environment on which every gate passes, the embedding backend loads,
and exactly the ArcFace model invocation raises. -/
def envDegraded : PipelineEnv := { envBase with model_outcome := outcomeArcFails }

/-- Counterexample to C5 as stated: when the embedding backend cannot be
loaded, `verify_faces` does not propagate an exception — its outer handler
catches the `FaceVerificationError` and returns a structured rejection
whose machine tag is the same `"verification_failed"` used for gate
rejections, so the caller receives no hard failure distinct from a gate
rejection. -/
theorem backend_unavailable_cex :
    verify_faces (mkEnhancedFaceVerifier 3 true) envNoDeepface =
      (.rejected (_error_response "DeepFace not available: import failed"
        "verification_failed"),
       [.detection, .quality, .liveness, .alignment, .ensemble])
    ∧ responseErrorTag (verify_faces (mkEnhancedFaceVerifier 3 true) envNoDeepface).1 =
        responseErrorTag (verify_faces (mkEnhancedFaceVerifier 3 true) envNoFace).1 := by
  constructor <;>
    · norm_num [verify_faces, verifyFacesRun, envNoDeepface, envNoFace, envBase,
        mkEnhancedFaceVerifier, detYolo, detNone, faceA, _detect_faces_yolo,
        runDetector, _assess_face_quality, goodQualityRaw, _check_liveness,
        goodLivenessRaw, _error_response, responseErrorTag]
      try decide

/-- Claim C5, amended. Gate rejections, internal `FaceVerificationError`s and
partial model degradation are all returned to the caller as normal
structured results: any error raised inside the pipeline body is caught by
the outer handler and converted to a rejection with the generic tag
`"verification_failed"`; in particular, when the embedding backend cannot
be loaded the caller receives a structured rejection whose message names
the backend failure — not a propagated exception distinct from gate
rejections — and when the backend loads but individual models fail the
call still completes with a success-shaped payload. -/
theorem error_propagation_policy (self : EnhancedFaceVerifier) (env : PipelineEnv)
    (f g : FaceCandidate) (msg : String) (tr : List Stage) :
    (verifyFacesRun self env = .error (msg, tr) →
      verify_faces self env = (.rejected (_error_response msg "verification_failed"), tr))
    ∧ (gatesPass self env f g → env.deepface_available = false →
      verify_faces self env =
        (.rejected (_error_response
          ("DeepFace not available: " ++ env.deepface_error) "verification_failed"),
         [.detection, .quality, .liveness, .alignment, .ensemble]))
    ∧ (gatesPass self env f g → env.deepface_available = true →
      ∃ p, (verify_faces self env).1 = .completed p) := by
  refine ⟨?_, ?_, ?_⟩
  · intro hrun
    unfold verify_faces
    rw [hrun]
  · rintro ⟨hd1, hd2, hidf, hsdf, hc1, hc2, hq1, hq2, hl⟩ hdf
    unfold verify_faces verifyFacesRun
    simp [hd1, hd2, hidf, hsdf, hc1, hc2, hq1, hq2, hl, hdf]
  · rintro ⟨hd1, hd2, hidf, hsdf, hc1, hc2, hq1, hq2, hl⟩ hdf
    unfold verify_faces verifyFacesRun
    simp [hd1, hd2, hidf, hsdf, hc1, hc2, hq1, hq2, hl, hdf]

/-- The gates all pass on `envBase` (and on its variants that only change
the embedding backend). -/
theorem gatesPass_envBase :
    gatesPass (mkEnhancedFaceVerifier 3 true) envBase faceA faceA
    ∧ gatesPass (mkEnhancedFaceVerifier 3 true) envNoDeepface faceA faceA
    ∧ gatesPass (mkEnhancedFaceVerifier 3 true) envDegraded faceA faceA := by
  refine ⟨?_, ?_, ?_⟩ <;>
    · refine ⟨rfl, rfl, rfl, rfl, ?_, ?_, ?_, ?_, ?_⟩
      · norm_num [faceA, mkEnhancedFaceVerifier]
      · norm_num [faceA, mkEnhancedFaceVerifier]
      · rw [assess_overall_eq]
        norm_num [qualityScore, tierOf, goodQualityRaw, faceA, envBase,
          envNoDeepface, envDegraded, mkEnhancedFaceVerifier]
        try decide
      · rw [assess_overall_eq]
        norm_num [qualityScore, tierOf, goodQualityRaw, faceA, envBase,
          envNoDeepface, envDegraded, mkEnhancedFaceVerifier]
        try decide
      · norm_num [_check_liveness, goodLivenessRaw, envBase, envNoDeepface,
          envDegraded, mkEnhancedFaceVerifier]

/-- Witness for C5 (amended): the backend-unavailable run returns the
structured DeepFace rejection, and the degraded run (one model raising)
still completes with a payload. -/
theorem error_propagation_policy_witness :
    verify_faces (mkEnhancedFaceVerifier 3 true) envNoDeepface =
      (.rejected (_error_response
        ("DeepFace not available: " ++ envNoDeepface.deepface_error)
        "verification_failed"),
       [.detection, .quality, .liveness, .alignment, .ensemble])
    ∧ ∃ p, (verify_faces (mkEnhancedFaceVerifier 3 true) envDegraded).1 =
        .completed p := by
  refine ⟨?_, ?_⟩
  · exact (error_propagation_policy (mkEnhancedFaceVerifier 3 true) envNoDeepface
      faceA faceA "" []).2.1 gatesPass_envBase.2.1 rfl
  · exact (error_propagation_policy (mkEnhancedFaceVerifier 3 true) envDegraded
      faceA faceA "" []).2.2 gatesPass_envBase.2.2 rfl

end VoteCrypt
